import Mathlib

/-!
Shallow embedding of the retrieval orchestration and cache layer of the
dicomweb-proxy repository (src/utils.js plus the express application file).

Time is modelled in milliseconds as Int (JavaScript Date.getTime values).
The archive collaborators (dimse.getScu, dimse.moveScu, dimse.findScu) are
external; their callbacks deliver result strings whose parsed content is
modelled by small inductive types.  The single-threaded cooperative
JavaScript execution model is embedded by making every synchronous code
region one atomic transition function on explicit state.
-/

namespace DicomProxy

/-- Millisecond arithmetic of the addMinutes helper in src/utils.js:
new Date(date.getTime() + minutes * 60000). -/
def addMinutes (date : Int) (minutes : Int) : Int :=
  date + minutes * 60000

/-- One parsed callback payload from the archive retrieve collaborator
(getScu or moveScu): json.code together with json.container.SOPInstanceUID
when the container carries one. -/
structure CallbackMsg where
  code : Int
  sop : Option String
  deriving DecidableEq

/-- Settled value of the fetchData promise: resolve(json) keeps the whole
parsed payload; reject is a retrieval error. -/
inductive Outcome where
  | payload (m : CallbackMsg)
  | err
  deriving DecidableEq

/-- State of a JavaScript promise: pending until the first resolve or
reject; later settle attempts are ignored. -/
inductive PromState where
  | pending
  | settled (o : Outcome)
  deriving DecidableEq

/-- First settle wins, as for JavaScript promises. -/
def settle (p : PromState) (o : Outcome) : PromState :=
  match p with
  | .pending => .settled o
  | s => s

/-- Cache write performed inside the code 0 or 2 branch of the fetchData
callback: storage.getItem(studyUid) followed by a conditional setItem.
The entry is created only when absent and only when keepCacheInMinutes is
at least zero; an existing entry is left untouched. -/
def cacheUpdate (existing : Option Int) (cacheTime : Int) (now : Int) : Option Int :=
  match existing with
  | some e => some e
  | none => if 0 ≤ cacheTime then some (addMinutes now cacheTime) else none

/-- State of one retrieve for a fixed (studyUid, seriesUid): whether the
lock map still holds an entry for the series, the promise state, and the
cache entry of the study. -/
structure FetchState where
  locked : Bool
  prom : PromState
  cache : Option Int
  deriving DecidableEq

/-- Synchronous body of fetchData in src/utils.js.  The promise executor
runs first: it invokes scu inside try/catch, so a synchronous throw rejects
the promise.  In either case lock.set(seriesUid, prom) runs afterwards, so
the state is locked even when the scu invocation threw. -/
def fetchStart (scuThrows : Bool) (cache : Option Int) : FetchState :=
  if scuThrows then { locked := true, prom := .settled .err, cache := cache }
  else { locked := true, prom := .pending, cache := cache }

/-- One invocation of the scu callback in fetchData.  The argument msg is
none when JSON.parse of the result (or the container field access) threw,
which the catch turns into reject.  Otherwise: with waitForFirstImageOnly
set, code 1 with a SOPInstanceUID resolves with the whole payload; code 0
or 2 resolves with the payload and performs the cache write; any other
code is only logged.  lock.delete(seriesUid) sits after the if/else chain,
so it runs on every callback invocation. -/
def fetchCallback (wait : Bool) (cacheTime : Int) (now : Int)
    (msg : Option CallbackMsg) (st : FetchState) : FetchState :=
  match msg with
  | none => { st with prom := settle st.prom .err, locked := false }
  | some m =>
    if wait = true ∧ m.code = 1 ∧ m.sop.isSome = true then
      { st with prom := settle st.prom (.payload m), locked := false }
    else if m.code = 0 ∨ m.code = 2 then
      { st with prom := settle st.prom (.payload m),
                cache := cacheUpdate st.cache cacheTime now,
                locked := false }
    else
      { st with locked := false }

/-- Coordinator state for the single-flight contract: the lock map from
series uid to the promise stored there (promises named by numeric ids),
and a count of archive retrieve invocations (getScu or moveScu calls). -/
structure CoordState where
  lock : List (String × Nat)
  scuCount : Nat
  nextProm : Nat
  deriving DecidableEq

/-- Lookup in the lock map (Map.get / Map.has of src/utils.js). -/
def lookupLock (l : List (String × Nat)) (k : String) : Option Nat :=
  match l with
  | [] => none
  | (k2, v) :: rest => if k2 = k then some v else lookupLock rest k

/-- Synchronous body of waitOrFetchData in src/utils.js: if the lock map
has an entry for seriesUid, return the stored promise; otherwise run
fetchData, whose body up to lock.set contains no await, hence is one
atomic step of the single-threaded runtime: the scu call is issued and the
new promise is registered before control can pass to any other request.
Returns the new state and the promise handed to the caller. -/
def waitOrFetchData (st : CoordState) (seriesUid : String) : CoordState × Nat :=
  match lookupLock st.lock seriesUid with
  | some pid => (st, pid)
  | none =>
    ({ lock := (seriesUid, st.nextProm) :: st.lock,
       scuCount := st.scuCount + 1,
       nextProm := st.nextProm + 1 }, st.nextProm)

/-- Parse status of the container field of a findScu response: JSON.parse
may throw, may yield null, or yields an array of records. -/
inductive ContainerParse (α : Type) where
  | badJson
  | null
  | arr (xs : List α)
  deriving DecidableEq

/-- Parse status of one findScu callback result string: JSON.parse of the
whole result may throw, otherwise it yields a code and a container. -/
inductive FindResult (α : Type) where
  | badJson
  | response (code : Int) (container : ContainerParse α)
  deriving DecidableEq

/-- JavaScript Array.prototype.slice with one argument: a negative start
counts from the end, clamped at zero; a non-negative start is clamped at
the length. -/
def jsSlice {α : Type} (xs : List α) (start : Int) : List α :=
  let n : Int := (xs.length : Int)
  let b : Int := if start < 0 then max (n + start) 0 else min start n
  xs.drop b.toNat

/-- Resolution behaviour of the findScu callback in doFind of
src/utils.js: some xs means resolve(xs) is called on this invocation, none
means the callback returns without settling the promise.  A parse failure
of the result or of the container is caught and resolved as the empty
list; code 0 with a null container resolves empty; code 0 with an array
resolves the slice from offset; any other code falls through the if with
no resolve and no reject. -/
def doFindCallback {α : Type} (offset : Int) (r : FindResult α) : Option (List α) :=
  match r with
  | .badJson => some []
  | .response code c =>
    if code = 0 then
      match c with
      | .badJson => some []
      | .null => some []
      | .arr xs => some (jsSlice xs offset)
    else none

/-- Search-parameter translation loop of doFind in src/utils.js, over the
query object in iteration order.  dictLookup is findDicomName over the
standard data dictionary (an external package), mapping a display name to
a tag key.  Parameters whose names do not resolve are skipped.  For the
patient name tag 00100010: a value shorter than qidoMinChars aborts the
whole call, which returns the empty list before findScu is invoked
(modelled as none); otherwise qidoAppendWildcard appends an asterisk.
Resolved parameters become filter terms in order (modelled as some list of
key, value pairs). -/
def translateQuery (dictLookup : String → Option String) (minChars : Int)
    (appendWildcard : Bool) : List (String × String) → Option (List (String × String))
  | [] => some []
  | (name, v) :: rest =>
    match dictLookup name with
    | none => translateQuery dictLookup minChars appendWildcard rest
    | some tag =>
      if tag = ("00100010" : String) ∧ minChars > (v.length : Int) then none
      else
        match translateQuery dictLookup minChars appendWildcard rest with
        | none => none
        | some ts =>
          some ((tag,
            if tag = ("00100010" : String) ∧ appendWildcard = true then v ++ "*" else v) :: ts)

/-- Guard of the eviction sweep in clearCache of src/utils.js: the stored
expiry is strictly in the past and the key is not the protected uid. -/
def expiredAndUnprotected (now : Int) (currentUid : String) (e : String × Int) : Bool :=
  decide (e.2 < now) && decide (¬ e.1 = currentUid)

/-- Resulting cache store after one clearCache sweep over the persisted
entries (key, expiry).  delOk tells whether the recursive fs.rmdir of the
directory of a key succeeds; storage.rm runs only in the success branch of
the rmdir callback, so an entry survives unless it was expired,
unprotected, and its directory deletion succeeded. -/
def clearCache (now : Int) (currentUid : String) (delOk : String → Bool)
    (entries : List (String × Int)) : List (String × Int) :=
  entries.filter (fun e => ! (expiredAndUnprotected now currentUid e && delOk e.1))

/-- Keys whose directories the sweep attempts to delete: exactly the
expired entries other than the protected uid. -/
def attemptedDirs (now : Int) (currentUid : String)
    (entries : List (String × Int)) : List String :=
  (entries.filter (fun e => expiredAndUnprotected now currentUid e)).map Prod.fst

/-- Keys whose directories the sweep deleted successfully. -/
def deletedDirs (now : Int) (currentUid : String) (delOk : String → Bool)
    (entries : List (String × Int)) : List String :=
  (entries.filter (fun e => expiredAndUnprotected now currentUid e && delOk e.1)).map Prod.fst

/-- Pixel-geometry header fields read from the representative materialized
file by the IMAGE metadata route: dicomParser values of tags x00280100,
x00280101, x00280102, x00280010, x00280011, x00280030. -/
structure PixelInfo where
  bitsAllocated : Nat
  bitsStored : Nat
  highBit : Nat
  rows : Nat
  cols : Nat
  pixelSpacing : String
  deriving DecidableEq

/-- One record of the IMAGE-level findScu result set: its pre-existing
attributes, plus the six pixel-geometry attributes the route may stamp
(tags 00280100, 00280101, 00280102, 00280010, 00280011, 00280030). -/
structure MetaRec where
  base : List (String × String)
  bitsAllocated : Option Nat
  bitsStored : Option Nat
  highBit : Option Nat
  rows : Option Nat
  cols : Option Nat
  pixelSpacing : Option String
  deriving DecidableEq

/-- Assignment loop of the metadata route: the six scalar values read from
the one representative file are written onto a record. -/
def stampRecord (info : PixelInfo) (r : MetaRec) : MetaRec :=
  { r with
    bitsAllocated := some info.bitsAllocated,
    bitsStored := some info.bitsStored,
    highBit := some info.highBit,
    rows := some info.rows,
    cols := some info.cols,
    pixelSpacing := some info.pixelSpacing }

/-- JavaScript value flowing into the pathname construction of the IMAGE
metadata route: the awaited result of waitOrFetchData is either a string
or, per the actual resolve(json) at utils.js line 82, the parsed payload
object. -/
inductive JsVal where
  | str (s : String)
  | obj (m : CallbackMsg)
  deriving DecidableEq

/-- JavaScript truthiness of such a value: only the empty string is falsy;
every object is truthy. -/
def jsTruthy : JsVal → Bool
  | .str s => !(s = ("" : String))
  | .obj _ => true

/-- path.join(storagePath, studyUid, seg) of the metadata route: path.join
throws a TypeError (none) unless every segment is a string. -/
def pathJoin3 (storagePath studyUid : String) (seg : JsVal) : Option String :=
  match seg with
  | .str s => some (storagePath ++ "/" ++ studyUid ++ "/" ++ s)
  | .obj _ => none

/-- Response assembly of the IMAGE metadata route in the application file,
from the point where doFind has answered and the waitOrFetchData promise
has resolved.  In order: the empty-result check answers 500; a falsy
resolved value falls back to the 00080018 value of the first record; the
pathname is built by path.join, which throws on a non-string segment,
aborting the handler before fs.readFile with no response at all (none); a
failed fs.readFile of the representative file answers 500 with the
unmodified records; otherwise every record is stamped with the six fields
of the one file read and status 200 is returned. -/
def metadataRoute (storagePath studyUid : String) (records : List MetaRec)
    (fallbackSop : String) (resolved : JsVal)
    (readFile : String → Option PixelInfo) : Option (Nat × List MetaRec) :=
  if records.length = 0 then some (500, records)
  else
    match pathJoin3 storagePath studyUid
        (if jsTruthy resolved then resolved else JsVal.str fallbackSop) with
    | none => none
    | some pathname =>
      match readFile (pathname ++ ".dcm") with
      | none => some (500, records)
      | some info => some (200, records.map (stampRecord info))

/-- C1: with no retrieve outstanding for a series, a first waitOrFetchData
call issues exactly one archive retrieve and registers its promise in the
lock map within the same atomic step, and a second call for the same
series joins: it receives the very same promise and issues no further
archive retrieve. -/
theorem waitOrFetchData_single_flight (st : CoordState) (sid : String)
    (h : lookupLock st.lock sid = none) :
    lookupLock (waitOrFetchData st sid).1.lock sid = some (waitOrFetchData st sid).2
    ∧ (waitOrFetchData st sid).1.scuCount = st.scuCount + 1
    ∧ (waitOrFetchData (waitOrFetchData st sid).1 sid).2 = (waitOrFetchData st sid).2
    ∧ (waitOrFetchData (waitOrFetchData st sid).1 sid).1.scuCount = st.scuCount + 1 := by
  simp [waitOrFetchData, h, lookupLock]

/-- Witness for C1 at the empty coordinator state and a concrete series id. -/
theorem waitOrFetchData_single_flight_witness :
    lookupLock (CoordState.mk [] 0 0).lock ("se1") = none
    ∧ (lookupLock (waitOrFetchData (CoordState.mk [] 0 0) ("se1")).1.lock ("se1")
          = some (waitOrFetchData (CoordState.mk [] 0 0) ("se1")).2
      ∧ (waitOrFetchData (CoordState.mk [] 0 0) ("se1")).1.scuCount
          = (CoordState.mk [] 0 0).scuCount + 1
      ∧ (waitOrFetchData (waitOrFetchData (CoordState.mk [] 0 0) ("se1")).1 ("se1")).2
          = (waitOrFetchData (CoordState.mk [] 0 0) ("se1")).2
      ∧ (waitOrFetchData (waitOrFetchData (CoordState.mk [] 0 0) ("se1")).1 ("se1")).1.scuCount
          = (CoordState.mk [] 0 0).scuCount + 1) :=
  ⟨by decide, waitOrFetchData_single_flight (CoordState.mk [] 0 0) ("se1") (by decide)⟩

/-- C2 evaluation: the lock lifecycle of fetchData diverges from the
claimed cleanup contract.  First: a callback bearing an intermediate
status (code 1 with waitForFirstImageOnly unset) removes the lock entry
although the promise is still pending.  Second: when the scu invocation
throws synchronously, the promise is rejected and the lock entry is set
afterwards and never removed. -/
theorem fetchData_lock_lifecycle_eval :
    (fetchCallback false 10 0 (some (CallbackMsg.mk 1 (some ("1.2.3"))))
        (fetchStart false none)).locked = false
    ∧ (fetchCallback false 10 0 (some (CallbackMsg.mk 1 (some ("1.2.3"))))
        (fetchStart false none)).prom = PromState.pending
    ∧ (fetchStart true none).locked = true
    ∧ (fetchStart true none).prom = PromState.settled Outcome.err := by
  decide

/-- C3 evaluation: with waitForFirstImageOnly set, a callback with code 1
and a SOPInstanceUID settles the promise on that very invocation, but the
resolved value is the whole parsed payload object, not the bare
SOPInstanceUID string the metadata route then uses as a path segment. -/
theorem fetchCallback_first_image_payload_eval :
    (fetchCallback true 10 0 (some (CallbackMsg.mk 1 (some ("1.2.3.4"))))
        (fetchStart false none)).prom
      = PromState.settled (Outcome.payload (CallbackMsg.mk 1 (some ("1.2.3.4")))) := by
  decide

/-- C4 counterexample: a well-formed findScu response with the non-zero
code 1 settles nothing — doFindCallback yields none (the promise stays
pending), not the empty list the claim requires. -/
theorem doFindCallback_nonzero_counterexample :
    doFindCallback (α := Nat) 0 (FindResult.response 1 ContainerParse.null) = none
    ∧ doFindCallback (α := Nat) 0 (FindResult.response 1 ContainerParse.null) ≠ some [] := by
  decide

/-- C4 amended: a malformed response resolves as the empty list, as does a
code 0 response whose container is malformed or null; but a response that
parses with a non-zero code leaves the promise unresolved on that
callback. -/
theorem doFindCallback_resolution (offset : Int) (code : Int)
    (c : ContainerParse Nat) (hcode : code ≠ 0) :
    doFindCallback (α := Nat) offset FindResult.badJson = some []
    ∧ doFindCallback offset (FindResult.response code c) = none
    ∧ doFindCallback (α := Nat) offset (FindResult.response 0 ContainerParse.badJson) = some []
    ∧ doFindCallback (α := Nat) offset (FindResult.response 0 ContainerParse.null) = some [] := by
  refine ⟨rfl, ?_, by simp [doFindCallback], by simp [doFindCallback]⟩
  simp [doFindCallback, hcode]

/-- Witness for C4 amended at offset 0, code 5, and an array container. -/
theorem doFindCallback_resolution_witness :
    (5 : Int) ≠ 0
    ∧ (doFindCallback (α := Nat) 0 FindResult.badJson = some []
      ∧ doFindCallback 0 (FindResult.response 5 (ContainerParse.arr [1, 2])) = none
      ∧ doFindCallback (α := Nat) 0 (FindResult.response 0 ContainerParse.badJson) = some []
      ∧ doFindCallback (α := Nat) 0 (FindResult.response 0 ContainerParse.null) = some []) :=
  ⟨by decide, doFindCallback_resolution 0 5 (ContainerParse.arr [1, 2]) (by decide)⟩

/-- C5: on a terminal callback with code 0 or 2, the cache entry of the
study is created with expiry now plus keepCacheInMinutes minutes exactly
when no entry exists and the retention is non-negative; a negative
retention creates no entry; an existing entry is left unchanged. -/
theorem fetchCallback_cache_policy (wait : Bool) (cacheTime now : Int)
    (m : CallbackMsg) (st : FetchState) (hcode : m.code = 0 ∨ m.code = 2) :
    (st.cache = none → 0 ≤ cacheTime →
      (fetchCallback wait cacheTime now (some m) st).cache = some (addMinutes now cacheTime))
    ∧ (st.cache = none → cacheTime < 0 →
      (fetchCallback wait cacheTime now (some m) st).cache = none)
    ∧ (∀ e : Int, st.cache = some e →
      (fetchCallback wait cacheTime now (some m) st).cache = some e) := by
  have hne : ¬ (wait = true ∧ m.code = 1 ∧ m.sop.isSome = true) := by
    rcases hcode with h | h <;> simp [h]
  simp only [fetchCallback, if_neg hne, if_pos hcode]
  refine ⟨?_, ?_, ?_⟩
  · intro h0 h1
    simp [cacheUpdate, h0, h1]
  · intro h0 h1
    simp [cacheUpdate, h0]
    omega
  · intro e h0
    simp [cacheUpdate, h0]

/-- Witness for C5 at code 0, retention 10 minutes, empty cache. -/
theorem fetchCallback_cache_policy_witness :
    ((CallbackMsg.mk 0 none).code = 0 ∨ (CallbackMsg.mk 0 none).code = 2)
    ∧ (((fetchStart false none).cache = none → 0 ≤ (10 : Int) →
        (fetchCallback false 10 0 (some (CallbackMsg.mk 0 none))
          (fetchStart false none)).cache = some (addMinutes 0 10))
      ∧ ((fetchStart false none).cache = none → (10 : Int) < 0 →
        (fetchCallback false 10 0 (some (CallbackMsg.mk 0 none))
          (fetchStart false none)).cache = none)
      ∧ (∀ e : Int, (fetchStart false none).cache = some e →
        (fetchCallback false 10 0 (some (CallbackMsg.mk 0 none))
          (fetchStart false none)).cache = some e)) :=
  ⟨Or.inl rfl,
    fetchCallback_cache_policy false 10 0 (CallbackMsg.mk 0 none)
      (fetchStart false none) (Or.inl rfl)⟩

/-- Membership characterization of the store left by one clearCache sweep:
an entry survives unless it was expired, unprotected, and its directory
deletion succeeded. -/
theorem mem_clearCache_iff (now : Int) (cur : String) (delOk : String → Bool)
    (entries : List (String × Int)) (e : String × Int) :
    e ∈ clearCache now cur delOk entries ↔
      e ∈ entries ∧ ¬ (e.2 < now ∧ e.1 ≠ cur ∧ delOk e.1 = true) := by
  simp only [clearCache, List.mem_filter]
  constructor
  · rintro ⟨hmem, hcond⟩
    refine ⟨hmem, ?_⟩
    rintro ⟨h1, h2, h3⟩
    simp [expiredAndUnprotected, h1, h2, h3] at hcond
  · rintro ⟨hmem, hcond⟩
    refine ⟨hmem, ?_⟩
    by_contra hb
    simp [expiredAndUnprotected] at hb
    exact hcond ⟨hb.1.1, hb.1.2, hb.2⟩

/-- C6: an entry that the sweep removed was expired, unprotected, and its
directory deletion succeeded; conversely an entry whose directory deletion
fails always survives the sweep, to be retried later. -/
theorem clearCache_remove_requires_deletion (now : Int) (cur : String)
    (delOk : String → Bool) (entries : List (String × Int)) (e : String × Int)
    (he : e ∈ entries) :
    (e ∉ clearCache now cur delOk entries →
      (e.2 < now ∧ e.1 ≠ cur ∧ delOk e.1 = true))
    ∧ (delOk e.1 = false → e ∈ clearCache now cur delOk entries) := by
  constructor
  · intro hnot
    by_contra hcon
    exact hnot ((mem_clearCache_iff now cur delOk entries e).mpr ⟨he, hcon⟩)
  · intro hfail
    refine (mem_clearCache_iff now cur delOk entries e).mpr ⟨he, ?_⟩
    rintro ⟨-, -, ht⟩
    rw [hfail] at ht
    exact Bool.false_ne_true ht

/-- Witness for C6 at a one-entry store whose directory deletion fails. -/
theorem clearCache_remove_requires_deletion_witness :
    (("a", (0 : Int)) ∈ [(("a" : String), (0 : Int))])
    ∧ ((("a", (0 : Int)) ∉ clearCache 1 ("b") (fun _ => false) [(("a" : String), (0 : Int))] →
        ((("a" : String), (0 : Int)).2 < 1 ∧ (("a" : String), (0 : Int)).1 ≠ ("b")
          ∧ (fun (_ : String) => false) (("a" : String), (0 : Int)).1 = true))
      ∧ ((fun (_ : String) => false) (("a" : String), (0 : Int)).1 = false →
        ("a", (0 : Int)) ∈ clearCache 1 ("b") (fun _ => false) [(("a" : String), (0 : Int))])) :=
  ⟨by decide,
    clearCache_remove_requires_deletion 1 ("b") (fun _ => false)
      [(("a" : String), (0 : Int))] ("a", (0 : Int)) (by decide)⟩

/-- C7: the sweep never attempts, and never performs, deletion of the
protected uid directory, and every store entry keyed by the protected uid
survives the sweep, regardless of its expiry. -/
theorem clearCache_protected_untouched (now : Int) (cur : String)
    (delOk : String → Bool) (entries : List (String × Int)) :
    cur ∉ attemptedDirs now cur entries
    ∧ cur ∉ deletedDirs now cur delOk entries
    ∧ ∀ v : Int, (cur, v) ∈ entries → (cur, v) ∈ clearCache now cur delOk entries := by
  refine ⟨?_, ?_, ?_⟩
  · simp [attemptedDirs, List.mem_map, List.mem_filter, expiredAndUnprotected]
  · simp [deletedDirs, List.mem_map, List.mem_filter, expiredAndUnprotected]
  · intro v hv
    refine (mem_clearCache_iff now cur delOk entries (cur, v)).mpr ⟨hv, ?_⟩
    rintro ⟨-, hne, -⟩
    exact hne rfl

/-- Witness for C7 at a store holding one long-expired protected entry. -/
theorem clearCache_protected_untouched_witness :
    ("a" : String) ∉ attemptedDirs 100 ("a") [(("a" : String), (0 : Int))]
    ∧ ("a" : String) ∉ deletedDirs 100 ("a") (fun _ => true) [(("a" : String), (0 : Int))]
    ∧ ∀ v : Int, (("a", v) ∈ [(("a" : String), (0 : Int))] →
        ("a", v) ∈ clearCache 100 ("a") (fun _ => true) [(("a" : String), (0 : Int))]) :=
  clearCache_protected_untouched 100 ("a") (fun _ => true) [(("a" : String), (0 : Int))]

/-- Abort propagation of the patient-name guard: a query containing a
patient-name parameter shorter than the configured minimum makes the whole
translation return none, wherever the parameter sits in the query. -/
theorem translateQuery_abort_of_short (dictLookup : String → Option String)
    (minChars : Int) (appendWildcard : Bool) :
    ∀ (query : List (String × String)) (name v : String),
      (name, v) ∈ query → dictLookup name = some ("00100010") →
      minChars > (v.length : Int) →
      translateQuery dictLookup minChars appendWildcard query = none := by
  intro query
  induction query with
  | nil =>
    intro name v hmem _ _
    simp at hmem
  | cons head rest ih =>
    intro name v hmem hdict hshort
    obtain ⟨n0, v0⟩ := head
    rcases List.mem_cons.mp hmem with heq | htail
    · injection heq with h1 h2
      subst h1
      subst h2
      simp [translateQuery, hdict, hshort]
    · have hrest := ih name v htail hdict hshort
      cases hdl : dictLookup n0 with
      | none => simp [translateQuery, hdl, hrest]
      | some tag => simp [translateQuery, hdl, hrest]

/-- Wildcard suffixing of the patient-name value: when the guard passes
and qidoAppendWildcard is set, the emitted filter terms contain the
patient-name tag with an asterisk appended to the supplied value. -/
theorem translateQuery_wildcard_of_mem (dictLookup : String → Option String)
    (minChars : Int) :
    ∀ (query : List (String × String)) (name v : String) (ts : List (String × String)),
      (name, v) ∈ query → dictLookup name = some ("00100010") →
      ¬ minChars > (v.length : Int) →
      translateQuery dictLookup minChars true query = some ts →
      (("00100010" : String), v ++ "*") ∈ ts := by
  intro query
  induction query with
  | nil =>
    intro name v ts hmem _ _ _
    simp at hmem
  | cons head rest ih =>
    intro name v ts hmem hdict hlong htr
    obtain ⟨n0, v0⟩ := head
    rcases List.mem_cons.mp hmem with heq | htail
    · injection heq with h1 h2
      subst h1
      subst h2
      simp only [translateQuery, hdict] at htr
      rw [if_neg (by simp [hlong])] at htr
      cases hr : translateQuery dictLookup minChars true rest with
      | none =>
        simp only [hr] at htr
        exact Option.noConfusion htr
      | some ts2 =>
        simp only [hr, Option.some.injEq] at htr
        subst htr
        simp
    · simp only [translateQuery] at htr
      cases hdl : dictLookup n0 with
      | none =>
        simp only [hdl] at htr
        exact ih name v ts htail hdict hlong htr
      | some tag =>
        simp only [hdl] at htr
        by_cases habort : tag = ("00100010" : String) ∧ minChars > (v0.length : Int)
        · rw [if_pos habort] at htr
          exact absurd htr (by simp)
        · rw [if_neg habort] at htr
          cases hr : translateQuery dictLookup minChars true rest with
          | none =>
            simp only [hr] at htr
            exact Option.noConfusion htr
          | some ts2 =>
            simp only [hr, Option.some.injEq] at htr
            subst htr
            exact List.mem_cons_of_mem _ (ih name v ts2 htail hdict hlong hr)

/-- C8: a query holding a patient-name parameter below the configured
minimum length makes the whole translation abort, so doFind answers the
empty list without invoking findScu; when the guard passes and wildcard
appending is configured, the emitted filter terms carry the patient-name
value with an appended asterisk. -/
theorem translateQuery_patient_name_policy (dictLookup : String → Option String)
    (minChars : Int) (query : List (String × String)) (name v : String)
    (hmem : (name, v) ∈ query) (hdict : dictLookup name = some ("00100010")) :
    (minChars > (v.length : Int) →
      ∀ appendWildcard : Bool,
        translateQuery dictLookup minChars appendWildcard query = none)
    ∧ (¬ minChars > (v.length : Int) →
      ∀ ts : List (String × String),
        translateQuery dictLookup minChars true query = some ts →
        (("00100010" : String), v ++ "*") ∈ ts) := by
  constructor
  · intro hshort w
    exact translateQuery_abort_of_short dictLookup minChars w query name v hmem hdict hshort
  · intro hlong ts htr
    exact translateQuery_wildcard_of_mem dictLookup minChars query name v ts hmem hdict hlong htr

/-- Witness for C8 at a dictionary resolving PatientName, minimum 3, and a
two-character name value. -/
theorem translateQuery_patient_name_policy_witness :
    ((("PatientName" : String), ("ab" : String)) ∈ [(("PatientName" : String), ("ab" : String))])
    ∧ ((fun n => if n = ("PatientName" : String) then some ("00100010") else none)
        ("PatientName") = some ("00100010"))
    ∧ (((3 : Int) > (("ab" : String).length : Int) →
        ∀ appendWildcard : Bool,
          translateQuery
            (fun n => if n = ("PatientName" : String) then some ("00100010") else none)
            3 appendWildcard [(("PatientName" : String), ("ab" : String))] = none)
      ∧ (¬ (3 : Int) > (("ab" : String).length : Int) →
        ∀ ts : List (String × String),
          translateQuery
            (fun n => if n = ("PatientName" : String) then some ("00100010") else none)
            3 true [(("PatientName" : String), ("ab" : String))] = some ts →
          (("00100010" : String), ("ab" : String) ++ "*") ∈ ts)) :=
  ⟨by decide, by decide,
    translateQuery_patient_name_policy
      (fun n => if n = ("PatientName" : String) then some ("00100010") else none)
      3 [(("PatientName" : String), ("ab" : String))] ("PatientName") ("ab")
      (by decide) (by decide)⟩

/-- C9 evaluation: at an IMAGE metadata request with a three-record result
set, a readable representative file, and the retrieve promise resolved —
which per utils.js line 82 always yields the truthy parsed payload object,
never a string — path.join throws a TypeError before fs.readFile and the
handler produces no response at all (none): the stamped 200 answer the
claim requires is unreachable, as is the read-failure 500.  The
empty-result 500 is reachable, and had the promise resolved with the
SOPInstanceUID string, as the claim intends, the same route would have
answered 200 with all three records stamped by the values of the one
file. -/
theorem metadataRoute_pathjoin_crash_eval :
    metadataRoute ("store") ("st1")
        [MetaRec.mk [] none none none none none none,
         MetaRec.mk [(("00080018" : String), ("s2" : String))] none none none none none none,
         MetaRec.mk [(("00080018" : String), ("s3" : String))] none none none none none none]
        ("s1") (JsVal.obj (CallbackMsg.mk 1 (some ("1.2.3.4"))))
        (fun _ => some (PixelInfo.mk 8 8 7 512 512 ("1"))) = none
    ∧ metadataRoute ("store") ("st1") [] ("s1")
        (JsVal.obj (CallbackMsg.mk 1 (some ("1.2.3.4"))))
        (fun _ => some (PixelInfo.mk 8 8 7 512 512 ("1"))) = some (500, [])
    ∧ metadataRoute ("store") ("st1")
        [MetaRec.mk [] none none none none none none,
         MetaRec.mk [(("00080018" : String), ("s2" : String))] none none none none none none,
         MetaRec.mk [(("00080018" : String), ("s3" : String))] none none none none none none]
        ("s1") (JsVal.str ("1.2.3.4"))
        (fun _ => some (PixelInfo.mk 8 8 7 512 512 ("1")))
      = some (200,
        [MetaRec.mk [] (some 8) (some 8) (some 7) (some 512) (some 512) (some ("1")),
         MetaRec.mk [(("00080018" : String), ("s2" : String))]
           (some 8) (some 8) (some 7) (some 512) (some 512) (some ("1")),
         MetaRec.mk [(("00080018" : String), ("s3" : String))]
           (some 8) (some 8) (some 7) (some 512) (some 512) (some ("1"))]) := by
  decide

/-- C10: a negative offset of minus k against a code 0 response with an
array container resolves the last min k n records of the array, by the
from-the-end semantics of Array.prototype.slice. -/
theorem doFindCallback_negative_offset (k : Nat) (xs : List Nat) (hk : 0 < k) :
    doFindCallback (-(k : Int)) (FindResult.response 0 (ContainerParse.arr xs))
      = some (xs.drop (xs.length - k))
    ∧ (xs.drop (xs.length - k)).length = min k xs.length := by
  have hneg : -(k : Int) < 0 := by omega
  constructor
  · simp only [doFindCallback, jsSlice, if_pos]
    rw [if_pos hneg]
    congr 2
    omega
  · simp only [List.length_drop]
    omega

/-- Witness for C10 at k equal 2 against a five-record response. -/
theorem doFindCallback_negative_offset_witness :
    0 < 2
    ∧ (doFindCallback (-((2 : Nat) : Int))
          (FindResult.response 0 (ContainerParse.arr [10, 20, 30, 40, 50]))
        = some ([10, 20, 30, 40, 50].drop ([10, 20, 30, 40, 50].length - 2))
      ∧ ([10, 20, 30, 40, 50].drop ([10, 20, 30, 40, 50].length - 2)).length
        = min 2 [10, 20, 30, 40, 50].length) :=
  ⟨by decide, doFindCallback_negative_offset 2 [10, 20, 30, 40, 50] (by decide)⟩

end DicomProxy
